import Mathlib

/-!
# Verification of the transportation workbench curve solver

Shallow embedding of the horizontal-curve resolution code of this repository
(`src/transportationwb/Geometry/Arc.py` and the support utilities in
`src/transportationwb/ScriptedObjectSupport/Utils.py` /
`src/Project/Support/Utils.py`) together with proofs about the embedded
definitions.

Modelling conventions:

* Python floats are modelled as rationals (`ℚ`).  `math.pi` is modelled by its
  printed double value as a decimal literal.
* The transcendental library calls (`math.sin`, `math.cos`, `math.tan`,
  `math.acos`, `math.sqrt`) are collected in an oracle parameter `Trig`;
  theorems quantify over the oracle, and concrete instantiations use small
  rational tables whose values agree with the real functions at the arguments
  exercised.
* Python `None` becomes `Option.none`; a dictionary with a fixed key set
  becomes a structure of optional fields.
* Division by zero yields `0` on `ℚ` whereas NumPy float division yields NaN.
  No theorem below depends on a matrix entry computed from an absent input
  vector (such entries are exactly the ones affected by this difference).
* Uncaught Python exceptions (`TypeError`, `KeyError`, `NameError`) are
  modelled with `Except.error` carrying the exception text.

The module `transportationwb/Geometry/Support.py` is imported by `Arc.py` but
is not part of the repository source; its functions (`within_tolerance`,
`get_rotation`, `safe_sub`, `vector_from_angle`) are modelled from the spec, as
is the document-unit scale factor `Units.scale_factor()`.  Each such definition
carries a doc comment starting with `Modelled from the spec:`.
-/

namespace TransportWB

/-- `math.pi` as the shortest decimal that round-trips the IEEE double. -/
def piQ : ℚ := 3.141592653589793

/-- `Constants.TWO_PI` from `ScriptedObjectSupport/Utils.py`. -/
def TWO_PI : ℚ := piQ * 2

/-- `Constants.HALF_PI` from `ScriptedObjectSupport/Utils.py`. -/
def HALF_PI : ℚ := piQ / 2

/-- `Constants.TOLERANCE` from `ScriptedObjectSupport/Utils.py` (1e-4). -/
def TOLERANCE : ℚ := 1 / 10000

/-- `App.Vector`: 3D coordinates with rational components. -/
structure Vec3 where
  x : ℚ
  y : ℚ
  z : ℚ
deriving DecidableEq

def Vec3.zero : Vec3 := ⟨0, 0, 0⟩

def Vec3.add (a b : Vec3) : Vec3 := ⟨a.x + b.x, a.y + b.y, a.z + b.z⟩

def Vec3.sub (a b : Vec3) : Vec3 := ⟨a.x - b.x, a.y - b.y, a.z - b.z⟩

/-- `Vector.multiply(s)` / `Vector * s`: scalar multiplication. -/
def Vec3.smul (a : Vec3) (s : ℚ) : Vec3 := ⟨a.x * s, a.y * s, a.z * s⟩

def Vec3.dot (a b : Vec3) : ℚ := a.x * b.x + a.y * b.y + a.z * b.z

/-- `Constants.UP = App.Vector(0.0, 1.0, 0.0)`. -/
def UP : Vec3 := ⟨0, 1, 0⟩

/-- `Utils.to_float` from `ScriptedObjectSupport/Utils.py`, restricted to the
scalar case used by `Arc.py`: `float(value)` on a number returns the number
itself, and `float(None)` raises `TypeError`, which the bare `except` swallows,
so `None` is returned.  (This version performs no NaN filtering.) -/
def to_float (value : Option ℚ) : Option ℚ := value

/-- Python truthiness of an optional float: `None` and `0.0` are falsy. -/
def pyTruthy (v : Option ℚ) : Bool :=
  match v with
  | none => false
  | some q => decide (q ≠ 0)

/-- Truthiness of a bare float, as used by `if _v` filters in `get_lengths`. -/
def truthyF (v : ℚ) : Bool := decide (v ≠ 0)

/-- Oracle for the transcendental library functions used by `Arc.py`.  The
code computes with IEEE doubles; the embedding passes the transcendental
evaluations in as a parameter so that control flow can be reasoned about for
every oracle, and concrete runs instantiate it with rational tables. -/
structure Trig where
  sinQ : ℚ → ℚ
  cosQ : ℚ → ℚ
  tanQ : ℚ → ℚ
  acosQ : ℚ → ℚ
  sqrtQ : ℚ → ℚ

/-- Modelled from the spec: `Support.within_tolerance` (two-argument form) from
the missing `transportationwb/Geometry/Support.py` module.  Spec 4.1: returns
true iff the supplied values are mutually within the fixed absolute tolerance
1e-4; "any comparison against `None`/absent must short-circuit to not within
tolerance, never raise". -/
def support_within_tolerance (lhs rhs : Option ℚ) : Bool :=
  match lhs, rhs with
  | some a, some b => decide (|a - b| < TOLERANCE)
  | _, _ => false

/-- Modelled from the spec: `Support.within_tolerance` applied to a list, as in
`within_tolerance(_b)` / `within_tolerance(_s)` in `Arc.py`: all supplied
values mutually within the fixed tolerance. -/
def support_within_tolerance_list (values : List ℚ) : Bool :=
  values.all (fun a => values.all (fun b => decide (|a - b| < TOLERANCE)))

/-- Modelled from the spec: `Support.get_rotation` — the "cross-product sign"
between two vectors (spec 4.2/4.5), with the convention of
`Utils.directed_angle`: a positive z-cross means counterclockwise (−1), a
negative one clockwise (+1); degenerate or absent input yields 0. -/
def support_get_rotation (iv ov : Option Vec3) : ℚ :=
  match iv, ov with
  | some a, some b =>
    let c := a.x * b.y - a.y * b.x
    if 0 < c then -1 else if c < 0 then 1 else 0
  | _, _ => 0

/-- Modelled from the spec: `Support.safe_sub` — difference of two possibly
absent points; absent operands give an absent result (spec 4.2 step 1 tracks
which vectors were absent). -/
def safe_sub (a b : Option Vec3) : Option Vec3 :=
  match a, b with
  | some v, some w => some (v.sub w)
  | _, _ => none

/-- Modelled from the spec: `Support.vector_from_angle`, matching
`Utils.vector_from_angle` in src: `App.Vector(sin(angle), cos(angle), 0.0)`. -/
def vector_from_angle (t : Trig) (angle : ℚ) : Vec3 := ⟨t.sinQ angle, t.cosQ angle, 0⟩

/-- The arc descriptor: a sparse mapping from parameter name to value
(`arc.get(key)` returns `None` for absent keys). -/
structure ArcDict where
  Start : Option Vec3 := none
  End : Option Vec3 := none
  Center : Option Vec3 := none
  PI : Option Vec3 := none
  Radius : Option ℚ := none
  Tangent : Option ℚ := none
  Chord : Option ℚ := none
  Middle : Option ℚ := none
  External : Option ℚ := none
  Length : Option ℚ := none
  Delta : Option ℚ := none
  BearingIn : Option ℚ := none
  BearingOut : Option ℚ := none
  Direction : Option ℚ := none
deriving DecidableEq

/-- The fixed table of closed-form angle relations built by
`_create_geo_func` (rows 0–5); unassigned entries are the default
`lambda _x: 0.0`. -/
def geoFunc (i j : ℕ) (x : ℚ) : ℚ :=
  match i, j with
  | 1, 0 => x
  | 3, 2 => x
  | 5, 0 => 2 * x - piQ
  | 4, 3 => 2 * x - piQ
  | 5, 1 => piQ - 2 * x
  | 4, 2 => piQ - 2 * x
  | 3, 0 => x - HALF_PI
  | 2, 1 => HALF_PI - x
  | 4, 0 => 2 * x
  | 4, 1 => 2 * x
  | 5, 2 => 2 * x
  | 5, 3 => 2 * x
  | _, _ => 0

/-- Row 6 of `_GEO.FUNC`: the bearing formulas `_fn[6][j]`, functions of the
elementary bearing, the delta and the rotation sign. -/
def geoFunc6 (j : ℕ) (x delta rot : ℚ) : ℚ :=
  match j with
  | 0 => x + rot * HALF_PI
  | 1 => x + rot * (-delta + HALF_PI)
  | 2 => x
  | 3 => x - rot * delta
  | 4 => x + rot * (HALF_PI - delta / 2)
  | 5 => x - rot * (delta / 2)
  | _ => x

/-- The 7×7 scalar/angle matrix; only indices 0–6 are ever consulted. -/
def Mat : Type := ℕ → ℕ → ℚ

/-- The seven row vectors of `mat_list`: the six curve vectors (absent ones
replaced by the zero vector, `[0,0,0]`) followed by the UP vector. -/
def matRows (vecs : List (Option Vec3)) : ℕ → Vec3 := fun i =>
  if i < 6 then ((vecs.getD i none).getD Vec3.zero) else UP

/-- Entry `(i,j)` of `mat * mat.T`: the dot product of rows `i` and `j`. -/
def gram (vecs : List (Option Vec3)) (i j : ℕ) : ℚ :=
  Vec3.dot (matRows vecs i) (matRows vecs j)

/-- The matrix diagonal after the first loop of `get_scalar_matrix`: square
roots of the self dot products for the six geometry rows (the UP row keeps its
raw dot product, which is 1). -/
def matDiag (t : Trig) (vecs : List (Option Vec3)) (i : ℕ) : ℚ :=
  if i < 6 then t.sqrtQ (gram vecs i i) else gram vecs i i

/-- `rot_list`: per-vector rotation sign against UP. -/
def rotList (vecs : List (Option Vec3)) (j : ℕ) : ℚ :=
  support_get_rotation (some UP) (vecs.getD j none)

/-- `get_scalar_matrix` from `Arc.py`.  The source's non-square-shape abort is
unreachable for the fixed 7×7 product (`result.shape[0] != result.shape[1]` is
always false), so the embedding returns the matrix directly.  The diagonal
holds magnitudes, the strict lower triangle holds remapped angles (row 6:
signed bearings normalised to [0, 2π)), and the upper triangle keeps the raw
dot products, exactly as in the source. -/
def get_scalar_matrix (t : Trig) (vecs : List (Option Vec3)) : Mat := fun i j =>
  if i = j then matDiag t vecs i
  else if j < i then
    let angle := t.acosQ (gram vecs i j / (matDiag t vecs i * matDiag t vecs j))
    if i < 6 then geoFunc i j angle
    else
      let b := angle * rotList vecs j
      if b < 0 then b + TWO_PI else b
  else gram vecs i j

/-- Result dictionary of `get_lengths`: `{'Radius': …, 'Tangent': …, 'Chord': …}`. -/
structure LengthsRes where
  Radius : Option ℚ
  Tangent : Option ℚ
  Chord : Option ℚ
deriving DecidableEq

/-- One iteration of the radius/tangent pair loop in `get_lengths` (`_i` = 0
or 1): filter the two consecutive magnitudes by truthiness; fail when the
retained values disagree beyond tolerance; keep the user value when it agrees
with the first retained magnitude; otherwise take the first retained
magnitude. -/
def length_pair_step (pair : List ℚ) (user : Option ℚ) : Option (Option ℚ) :=
  let s := pair.filter truthyF
  match s with
  | [] => some user
  | s0 :: rest =>
    if (s0 :: rest).all truthyF ∧ ¬ support_within_tolerance_list (s0 :: rest) then
      none
    else if truthyF s0 ∧ support_within_tolerance (some s0) user then
      some user
    else
      some (some s0)

/-- `get_lengths` from `Arc.py`.  Diagonal layout: `[0,1]` radius, `[2,3]`
tangent, `[4]` middle, `[5]` chord.  The middle/chord loop keeps the user value
only when a truthy calculated value confirms it, and otherwise stores the
calculated value (even when that value is 0.0). -/
def get_lengths (arc : ArcDict) (mat : Mat) : Option LengthsRes :=
  let lengths : ℕ → ℚ := fun i => mat i i
  match length_pair_step [lengths 0, lengths 1] arc.Radius with
  | none => none
  | some radius =>
    match length_pair_step [lengths 2, lengths 3] arc.Tangent with
    | none => none
    | some tangent =>
      let _middle : Option ℚ :=
        if truthyF (lengths 4) ∧ support_within_tolerance (some (lengths 4)) arc.Middle
        then arc.Middle else some (lengths 4)
      let chord : Option ℚ :=
        if truthyF (lengths 5) ∧ support_within_tolerance (some (lengths 5)) arc.Chord
        then arc.Chord else some (lengths 5)
      some ⟨radius, tangent, chord⟩

/-- Result dictionary of `get_delta`. -/
structure DeltaRes where
  Delta : ℚ
deriving DecidableEq

/-- Python's "use the second value only when the first is absent". -/
def oFirst (a b : Option ℚ) : Option ℚ :=
  match a with
  | some v => some v
  | none => b

/-- The inner loop of `get_delta`'s scan over one row: the `break` fires as
soon as a truthy (`Utils.to_float`-filtered) entry is found, so each row
contributes its first truthy entry, if any. -/
def rowScan (row : List ℚ) : Option ℚ :=
  row.find? (fun v => pyTruthy (to_float (some v)))

/-- The strict-lower-triangle entries of rows 1–5, row by row, in the order
the nested loops of `get_delta` visit them. -/
def deltaRows (mat : Mat) : List (List ℚ) :=
  [[mat 1 0],
   [mat 2 0, mat 2 1],
   [mat 3 0, mat 3 1, mat 3 2],
   [mat 4 0, mat 4 1, mat 4 2, mat 4 3],
   [mat 5 0, mat 5 1, mat 5 2, mat 5 3, mat 5 4]]

/-- `get_delta` from `Arc.py`.  The `break` statement exits only the inner
loop, so every row that holds a truthy entry overwrites `delta`; the final
value comes from the last such row.  `if not delta` rejects both `None` and an
exact 0.0. -/
def get_delta (arc : ArcDict) (mat : Mat) : Option DeltaRes :=
  let delta := (deltaRows mat).foldl (fun acc row => oFirst (rowScan row) acc) arc.Delta
  match delta with
  | none => none
  | some v => if v = 0 then none else some ⟨v⟩

/-- Result dictionary of `get_rotation`; the value may itself be `None`. -/
structure RotRes where
  Direction : Option ℚ
deriving DecidableEq

/-- `get_rotation` from `Arc.py`: filter the in-vectors (`vecs[0:3]`) and
out-vectors (`vecs[3:]`) for present, nonzero vectors; without both, fall back
to the user Direction — note that a dictionary is returned on every path (the
function can never return `None`). -/
def get_rotation (arc : ArcDict) (vecs : List (Option Vec3)) : Option RotRes :=
  let v1 := ((vecs.take 3).filterMap id).filter (fun v => decide (v ≠ Vec3.zero))
  let v2 := ((vecs.drop 3).filterMap id).filter (fun v => decide (v ≠ Vec3.zero))
  match v1, v2 with
  | a :: _, b :: _ => some ⟨some (support_get_rotation (some a) (some b))⟩
  | _, _ => some ⟨arc.Direction⟩

/-- The `{'Radius': …, 'Tangent': …, 'Internal': …}` scratch dictionary of
bearing pairs built by `get_bearings`. -/
structure BearingsMat where
  Radius : ℚ × ℚ
  Tangent : ℚ × ℚ
  Internal : ℚ × ℚ
deriving DecidableEq

/-- Result dictionary of `get_bearings`. -/
structure BearingsRes where
  BearingIn : ℚ
  BearingOut : ℚ
  Bearings : BearingsMat
deriving DecidableEq

/-- `get_bearings` from `Arc.py`.  When the rotation value is `None`
(`get_rotation` fell through with no user Direction), the very first lambda
application `_x + _rot * C.HALF_PI` raises a `TypeError`.  Candidate bearings
are filtered by the truthiness of `Utils.to_float`; a nonempty candidate list
must be mutually within tolerance, and its head replaces an out-of-tolerance
user BearingIn.  `if not bearing_in` then rejects both `None` and 0.0. -/
def get_bearings (arc : ArcDict) (mat : Mat) (delta : ℚ) (rot : Option ℚ) :
    Except String (Option BearingsRes) :=
  match rot with
  | none => .error "TypeError: unsupported operand type(s) for *: NoneType and float"
  | some r =>
    let bearings : List ℚ :=
      [geoFunc6 0 (mat 6 0) delta r, geoFunc6 1 (mat 6 1) delta r,
       geoFunc6 2 (mat 6 2) delta r, geoFunc6 3 (mat 6 3) delta r,
       geoFunc6 4 (mat 6 4) delta r, geoFunc6 5 (mat 6 5) delta r]
    let b := bearings.filter (fun v => pyTruthy (to_float (some v)))
    let afterB : Option (Option ℚ) :=
      match b with
      | [] => some arc.BearingIn
      | b0 :: brest =>
        if ¬ support_within_tolerance_list (b0 :: brest) then none
        else if ¬ support_within_tolerance (some b0) arc.BearingIn then some (some b0)
        else some arc.BearingIn
    match afterB with
    | none => .ok none
    | some bearing_in =>
      match bearing_in with
      | none => .ok none
      | some binv =>
        if binv = 0 then .ok none
        else
          let b_out := binv + delta * r
          let bearing_out :=
            if support_within_tolerance (some b_out) arc.BearingOut
            then arc.BearingOut.getD b_out else b_out
          let row : ℕ → ℚ := fun j => mat 6 j
          let rad0 := if pyTruthy (to_float (some (row 0))) then row 0
            else binv - r * HALF_PI
          let rad1 := if pyTruthy (to_float (some (row 1))) then row 1
            else rad0 + r * delta
          let int0 := if pyTruthy (to_float (some (row 4))) then row 4
            else rad0 + r * (delta / 2)
          let int1 := if pyTruthy (to_float (some (row 5))) then row 5
            else rad0 + r * ((piQ + delta) / 2)
          .ok (some ⟨binv, bearing_out,
            ⟨(rad0, rad1), (binv, bearing_out), (int0, int1)⟩⟩)

/-- The five reconciled values of `get_missing_parameters`. -/
structure MissingVals where
  Chord : Option ℚ
  Middle : Option ℚ
  Tangent : Option ℚ
  Length : Option ℚ
  External : Option ℚ
deriving DecidableEq

/-- The first half of `get_missing_parameters`: fail when `Radius` or `Delta`
is `None` (`is None`, not truthiness), then fill `Length`, `External` and
`Middle` unconditionally with the closed-form values and `Tangent` / `Chord`
only when `new_arc` does not already hold a truthy value.  (Python performs
these writes by mutating `new_arc` in place.) -/
def fill_missing (t : Trig) (new_arc : ArcDict) : Option ArcDict :=
  match new_arc.Radius, new_arc.Delta with
  | some radius, some delta =>
    let half_delta := delta / 2
    let na1 : ArcDict := { new_arc with
      Length := some (radius * delta),
      External := some (radius * ((1 / t.cosQ half_delta) - 1)),
      Middle := some (radius * (1 - t.cosQ half_delta)) }
    let na2 : ArcDict :=
      if pyTruthy na1.Tangent then na1
      else { na1 with Tangent := some (radius * t.tanQ half_delta) }
    let na3 : ArcDict :=
      if pyTruthy na2.Chord then na2
      else { na2 with Chord := some (2 * radius * t.sinQ half_delta) }
    some na3
  | _, _ => none

/-- The reconciliation loop at the bottom of `get_missing_parameters`: for each
of the five keys, keep the value read from `arc` when it is within tolerance of
the value read from (the already-mutated) `new_arc`, and otherwise take the
`new_arc` value. -/
def reconcile_missing (arc na : ArcDict) : MissingVals :=
  let pick := fun (existing newv : Option ℚ) =>
    if support_within_tolerance existing newv then existing else newv
  ⟨pick arc.Chord na.Chord, pick arc.Middle na.Middle, pick arc.Tangent na.Tangent,
   pick arc.Length na.Length, pick arc.External na.External⟩

/-- `get_missing_parameters(arc, new_arc)` from `Arc.py`, for two distinct
dictionary objects: the in-place fills of `new_arc` happen before `arc` is
read, and with distinct objects `arc`'s reads are unaffected by them.  (The
orchestrator passes the *same* dictionary for both arguments; that aliased
call is modelled in `get_arc_parameters` by reconciling the filled dictionary
against itself, which is exactly what the mutated reads produce.) -/
def get_missing_parameters (t : Trig) (arc new_arc : ArcDict) : Option MissingVals :=
  match fill_missing t new_arc with
  | none => none
  | some na => some (reconcile_missing arc na)

/-- Result dictionary of `get_coordinates`. -/
structure CoordRes where
  Start : Vec3
  Center : Vec3
  End : Vec3
  PI : Vec3
deriving DecidableEq

/-- `get_coordinates` from `Arc.py`: turn the resolved bearings into unit
vectors, scale them by Radius / Tangent / Chord, and complete the point set
from whichever anchor is available (priority PI, Center, End when Start is
absent).  `Vector.multiply(None)` would raise a `TypeError`; on the
orchestrated path Radius, Tangent and Chord are always present here. -/
def get_coordinates (t : Trig) (arc : ArcDict) (brg : BearingsMat)
    (points : Option Vec3 × Option Vec3 × Option Vec3 × Option Vec3) :
    Except String (Option CoordRes) :=
  match arc.Radius, arc.Tangent, arc.Chord with
  | some radius, some tangent, some chord =>
    let vr := (vector_from_angle t brg.Radius.1).smul radius
    let vt := (vector_from_angle t brg.Tangent.1).smul tangent
    let vc := (vector_from_angle t brg.Internal.2).smul chord
    let s := points.1
    let e := points.2.1
    let c := points.2.2.1
    let p := points.2.2.2
    let startPt : Option Vec3 :=
      match s with
      | some v => some v
      | none =>
        match p with
        | some pv => some (pv.sub vt)
        | none =>
          match c with
          | some cv => some (cv.add vr)
          | none =>
            match e with
            | some ev => some (ev.sub vc)
            | none => none
    match startPt with
    | none => .ok none
    | some st =>
      let piPt := p.getD (st.add vt)
      let cen := c.getD (st.sub vr)
      let en := e.getD (st.add vc)
      .ok (some ⟨st, cen, en, piPt⟩)
  | _, _, _ => .error "TypeError: Vector.multiply argument is None"

/-- Outcome of `get_arc_parameters`: a fully populated dictionary, a printed
diagnostic with `None` returned, or an uncaught Python exception. -/
inductive ArcOutcome where
  | success : ArcDict → ArcOutcome
  | failure : String → ArcOutcome
  | raised : String → ArcOutcome
deriving DecidableEq

/-- The six candidate direction vectors built at the top of
`get_arc_parameters`: radius-start, radius-end, tangent-start, tangent-end,
internal bisector, chord. -/
def arc_vecs (arc : ArcDict) : List (Option Vec3) :=
  [safe_sub arc.Start arc.Center,
   safe_sub arc.End arc.Center,
   safe_sub arc.PI arc.Start,
   safe_sub arc.End arc.PI,
   safe_sub arc.PI arc.Center,
   safe_sub arc.End arc.Start]

/-- `get_arc_parameters` from `Arc.py`: run the stages in sequence, stopping
at the first failing stage with its diagnostic.  `result` starts as an empty
dictionary and accumulates the stage outputs; the `Bearings` scratch entry is
carried separately and dropped from the success value, matching the final
`result.pop('Bearings')`. -/
def get_arc_parameters (t : Trig) (arc : ArcDict) : ArcOutcome :=
  let points := [arc.Start, arc.End, arc.Center, arc.PI]
  let point_count := (points.filterMap id).length
  let points0 := if point_count = 0 then some Vec3.zero else arc.Start
  let vecs := arc_vecs arc
  let mat := get_scalar_matrix t vecs
  match get_lengths arc mat with
  | none => .failure "Invalid curve definition: cannot determine radius / tangent lengths"
  | some lens =>
    match get_delta arc mat with
    | none => .failure "Invalid curve definition: cannot determine central angle"
    | some dl =>
      match get_rotation arc vecs with
      | none => .failure "Invalid curve definition: cannot determine curve direction"
      | some rr =>
        match get_bearings arc mat dl.Delta rr.Direction with
        | .error e => .raised e
        | .ok none => .failure "Invalid curve definition: cannot determine curve bearings"
        | .ok (some brg) =>
          let result : ArcDict :=
            { Radius := lens.Radius, Tangent := lens.Tangent, Chord := lens.Chord,
              Delta := some dl.Delta, Direction := rr.Direction,
              BearingIn := some brg.BearingIn, BearingOut := some brg.BearingOut }
          match fill_missing t result with
          | none => .failure "Invalid curve definition: cannot calculate all parameters"
          | some na =>
            let vals := reconcile_missing na na
            let result2 : ArcDict := { result with
              Chord := vals.Chord, Middle := vals.Middle, Tangent := vals.Tangent,
              Length := vals.Length, External := vals.External }
            match get_coordinates t result2 brg.Bearings (points0, arc.End, arc.Center, arc.PI) with
            | .error e => .raised e
            | .ok none => .failure "Invalid curve definition: cannot calculate coordinates"
            | .ok (some coords) =>
              .success { result2 with
                Start := some coords.Start, Center := some coords.Center,
                End := some coords.End, PI := some coords.PI }

/-- `convert_units` from `Arc.py`.  `sf` models the missing
`Units.scale_factor()` (modelled from the spec: a fixed document-unit scale
factor).  `to_document = false` converts to internal units (`math.radians`,
multiply by `sf`), `to_document = true` converts back (`math.degrees`,
multiply by `1/sf`).  `None` values and the `Direction` key pass through
unchanged. -/
def convert_units (sf : ℚ) (arc : ArcDict) (to_document : Bool) : ArcDict :=
  let angle_fn : ℚ → ℚ :=
    if to_document then (fun x => x * (180 / piQ)) else (fun x => x * (piQ / 180))
  let scale_factor := if to_document then 1 / sf else sf
  { Start := arc.Start.map (fun v => v.smul scale_factor),
    End := arc.End.map (fun v => v.smul scale_factor),
    Center := arc.Center.map (fun v => v.smul scale_factor),
    PI := arc.PI.map (fun v => v.smul scale_factor),
    Radius := arc.Radius.map (fun v => v * scale_factor),
    Tangent := arc.Tangent.map (fun v => v * scale_factor),
    Chord := arc.Chord.map (fun v => v * scale_factor),
    Middle := arc.Middle.map (fun v => v * scale_factor),
    External := arc.External.map (fun v => v * scale_factor),
    Length := arc.Length.map (fun v => v * scale_factor),
    Delta := arc.Delta.map angle_fn,
    BearingIn := arc.BearingIn.map angle_fn,
    BearingOut := arc.BearingOut.map angle_fn,
    Direction := arc.Direction }

/-- The local names bound in the body of `Utils.within_tolerance`
(`ScriptedObjectSupport/Utils.py`): its parameters. -/
def within_tolerance_locals : List String := ["lhs", "rhs"]

/-- `Utils.within_tolerance` from `ScriptedObjectSupport/Utils.py`.  Its body
is `return abs(lhr-rhs) < Constants.TOLERANCE`, but the name `lhr` is bound
nowhere — not a local, not a module global, not a builtin — so every call
raises `NameError` before any comparison happens.  The embedding resolves the
name against the function's bindings; the comparison the docstring promises is
only reachable if `lhr` were bound. -/
def within_tolerance (lhs rhs : Option ℚ) : Except String Bool :=
  if "lhr" ∈ within_tolerance_locals then
    match lhs, rhs with
    | some a, some b => .ok (decide (|a - b| < TOLERANCE))
    | _, _ => .error "TypeError: unsupported operand type(s) for -"
  else
    .error "NameError: name lhr is not defined"

/-- The loop of `station_to_distance` (identical in
`ScriptedObjectSupport/Utils.py` and `Project/Support/Utils.py`).  `eqn[0]` is
read into `end_sta` at the top of each iteration; the guard requires both
`start_sta` and `end_sta` to be non-negative; the final line `start = eqn[1]`
stores the forward station into a variable named `start` that is never read —
`start_sta` itself is never reassigned. -/
def station_loop (s start_sta _end_sta distance : ℚ) : List (ℚ × ℚ) → ℚ
  | [] => distance
  | eqn :: rest =>
    let end_sta := eqn.1
    if ¬ (start_sta < 0 ∨ end_sta < 0) then
      if s ≤ end_sta ∧ start_sta ≤ s then
        distance + (s - start_sta)
      else
        let _start := eqn.2
        station_loop s start_sta end_sta (distance + (end_sta - start_sta)) rest
    else
      let _start := eqn.2
      station_loop s start_sta end_sta distance rest

/-- `station_to_distance` from the support utilities.  A station that does not
parse as a float returns 0 immediately; otherwise the loop runs with
`start_sta = end_sta = -1` and `distance = 0.0`. -/
def station_to_distance (station : Option ℚ) (equations : List (ℚ × ℚ)) : ℚ :=
  match station with
  | none => 0
  | some s => station_loop s (-1) (-1) 0 equations

/-- A Python dictionary with string keys and float values, as consumed by
`get_points`. -/
def PointsDict : Type := List (String × ℚ)

/-- `d[k]` lookup returning `None` for a missing key (the caller models
`KeyError` on the `None` case). -/
def dict_get (d : PointsDict) (k : String) : Option ℚ :=
  (d.find? (fun kv => kv.1 == k)).map (fun kv => kv.2)

/-- `get_points` from `Arc.py`.  `sf` models `Units.scale_factor()` (modelled
from the spec).  The body reads `arc_dict['Delta']`, `arc_dict['Direction']`,
`arc_dict['InBearing']` and `arc_dict['Radius']` in that order, raising
`KeyError` for a missing key; when Direction or Delta is falsy it calls
`calc_arc_delta`, a name not defined anywhere in the module (`NameError`).
The segment list is `[(i+1)*delta for i in range(int(angle/delta)+1)]` with
its last entry overwritten by the exact central angle, and the returned list
starts with the extra `App.Vector()` placeholder created by
`result = [App.Vector()]`. -/
def get_points (t : Trig) (sf : ℚ) (arc_dict : PointsDict) (interval : ℚ)
    (interval_type : String) (start_coord : Vec3) :
    Except String (Option (List Vec3)) :=
  match dict_get arc_dict "Delta" with
  | none => .error "KeyError: Delta"
  | some angle0 =>
    match dict_get arc_dict "Direction" with
    | none => .error "KeyError: Direction"
    | some direction0 =>
      match dict_get arc_dict "InBearing" with
      | none => .error "KeyError: InBearing"
      | some bearing_in =>
        match dict_get arc_dict "Radius" with
        | none => .error "KeyError: Radius"
        | some radius =>
          if direction0 = 0 ∨ angle0 = 0 then
            .error "NameError: name calc_arc_delta is not defined"
          else if radius ≤ 0 ∨ angle0 ≤ 0 ∨ interval ≤ 0 then
            .ok none
          else if ¬ (0 < bearing_in ∧ bearing_in < TWO_PI) then
            .ok none
          else
            let forward : Vec3 := ⟨t.sinQ bearing_in, t.cosQ bearing_in, 0⟩
            let right : Vec3 := ⟨forward.y, -forward.x, 0⟩
            let radius_mm := radius * sf
            let d0 := angle0 / interval
            let dlt :=
              if interval_type == "Interval" then interval / radius
              else if interval_type == "Tolerance" then 2 * t.acosQ (1 - interval / radius)
              else d0
            let n := (⌊angle0 / dlt⌋).toNat
            let segment_deltas :=
              (((List.range (n + 1)).map (fun i => ((i : ℚ) + 1) * dlt)).dropLast) ++ [angle0]
            let pts := segment_deltas.map (fun dl =>
              start_coord.add (((forward.smul (t.sinQ dl)).add
                (right.smul (direction0 * (1 - t.cosQ dl)))).smul radius_mm))
            .ok (some (Vec3.zero :: pts))

/-- The numeric entries of the dictionary a successful `get_arc_parameters`
returns (keys as produced by the resolver; the four point-valued entries hold
vectors, which `get_points` never reads, so they are not representable in the
float-valued dictionary and are omitted — omission only removes keys
`get_points` does not access). -/
def resolved_arc_dict (res : ArcDict) : PointsDict :=
  [("Radius", res.Radius.getD 0), ("Tangent", res.Tangent.getD 0),
   ("Chord", res.Chord.getD 0), ("Middle", res.Middle.getD 0),
   ("External", res.External.getD 0), ("Length", res.Length.getD 0),
   ("Delta", res.Delta.getD 0), ("BearingIn", res.BearingIn.getD 0),
   ("BearingOut", res.BearingOut.getD 0), ("Direction", res.Direction.getD 0)]

/-! ## Spec-side comparison definitions and concrete instances -/

/-- The claim's reading of the delta scan (spec 4.4): the *first* nonzero
value encountered when walking the strict lower triangle of rows 1–5 in
order.  Written from the spec's words, to be compared with `get_delta`. -/
def first_lower_triangle_value (mat : Mat) : Option ℚ :=
  ((deltaRows mat).flatten).find? (fun v => pyTruthy (to_float (some v)))

/-- The matrix value `get_delta` actually keeps: since the `break` leaves only
the inner loop, it is the first truthy entry of the *last* row (among rows
1–5) that contains one. -/
def empirical_delta (mat : Mat) : Option ℚ :=
  (deltaRows mat).reverse.findSome? rowScan

/-- The amended reading of `get_missing_parameters` (claim C5), written from
the amended claim's words: fails iff Radius or Delta is absent from `new_arc`;
Length, External and Middle are compared against the closed-form values;
Tangent and Chord keep a truthy value already present in `new_arc` and fall
back to the closed form only otherwise; each final field keeps `arc`'s value
when it is within tolerance of the comparison value and takes the comparison
value otherwise. -/
def missing_spec (t : Trig) (arc na : ArcDict) : Option MissingVals :=
  match na.Radius, na.Delta with
  | some radius, some delta =>
    let half := delta / 2
    let lengthC := radius * delta
    let externalC := radius * ((1 / t.cosQ half) - 1)
    let middleC := radius * (1 - t.cosQ half)
    let tangentC :=
      match na.Tangent with
      | some v => if v = 0 then radius * t.tanQ half else v
      | none => radius * t.tanQ half
    let chordC :=
      match na.Chord with
      | some v => if v = 0 then 2 * radius * t.sinQ half else v
      | none => 2 * radius * t.sinQ half
    let keep := fun (user : Option ℚ) (comp : ℚ) =>
      if support_within_tolerance user (some comp) then user else some comp
    some ⟨keep arc.Chord chordC, keep arc.Middle middleC, keep arc.Tangent tangentC,
          keep arc.Length lengthC, keep arc.External externalC⟩
  | _, _ => none

/-- Rational stand-in for `math.sqrt`, used only to instantiate
oracle-quantified theorems at concrete inputs; exact on the perfect squares
the witnesses exercise. -/
def ratSqrt (q : ℚ) : ℚ :=
  if q = 0 then 0 else if q = 1 then 1 else if q = 9 then 3
  else if q = 16 then 4 else if q = 25 then 5 else 0

/-- Rational stand-in for `math.acos`, exact at -1, 0 and 1. -/
def ratAcos (q : ℚ) : ℚ :=
  if q = 1 then 0 else if q = 0 then HALF_PI else if q = -1 then piQ else 0

/-- Concrete oracle used by the witnesses (sine/cosine values are never
consulted on the witnessed paths). -/
def ratTrig : Trig := ⟨fun _ => 0, fun _ => 1, fun _ => 0, ratAcos, ratSqrt⟩

/-- Concrete oracle for the `get_missing_parameters` counterexample: rational
approximations of sin, cos and tan at 1/2 (the half central angle used
there). -/
def trigC5 : Trig :=
  ⟨fun q => if q = 1 / 2 then 4794 / 10000 else 0,
   fun q => if q = 1 / 2 then 8776 / 10000 else 0,
   fun q => if q = 1 / 2 then 5463 / 10000 else 0,
   fun _ => 0, fun _ => 0⟩

/-- Mismatched Start/Center/End: `|Start - Center| = 3` but
`|End - Center| = 4`, so the two derivable radius magnitudes disagree far
beyond tolerance, while a user Radius is also supplied. -/
def arcC2 : ArcDict :=
  { Start := some ⟨0, 0, 0⟩, Center := some ⟨3, 0, 0⟩, End := some ⟨3, 4, 0⟩,
    Radius := some 670 }

/-- Matrix whose lower triangle holds 1/2 at row 1 and 1/4 at row 2: the scan
of `get_delta` keeps the *last* row's value. -/
def matC4 : Mat := fun i j =>
  if i = 1 ∧ j = 0 then (1 : ℚ) / 2 else if i = 2 ∧ j = 0 then 1 / 4 else 0

/-- New-arc input for the C5 counterexample: resolved Radius 1 and Delta 1
with a Tangent of 999 that is wildly inconsistent with
`Radius * tan(Delta/2) ≈ 0.5463`. -/
def arcC5 : ArcDict := { Radius := some 1, Delta := some 1, Tangent := some 999 }

/-- Bearing row crafted so that all six candidate bearings computed by
`get_bearings` (with delta 1, rotation 1) are exactly 0.0 — six derived
due-north bearings. -/
def matB : Mat := fun i j =>
  if i = 6 then
    (if j = 0 then -HALF_PI else if j = 1 then 1 - HALF_PI
     else if j = 3 then 1 else if j = 4 then 1 / 2 - HALF_PI
     else if j = 5 then (1 : ℚ) / 2 else 0)
  else 0

/-- The all-zero matrix (all lower-triangle angle values 0.0). -/
def matZero : Mat := fun _ _ => 0

/-- A descriptor with every field populated at least once per conversion kind
(angles, lengths, points, Direction, and some absent fields), for the unit
round-trip witness. -/
def arcC8 : ArcDict :=
  { Start := some ⟨1, 2, 0⟩, Center := some ⟨-5, 7 / 2, 0⟩,
    Radius := some 670, Length := some (58838 / 100),
    Delta := some (503161 / 10000), BearingIn := some (1393986 / 10000),
    BearingOut := some (890825 / 10000), Direction := some (-1) }

/-! ## Helper lemmas -/

/-- A left fold that overwrites its accumulator with each row's first hit
keeps the hit of the last row that has one. -/
theorem foldl_oFirst (f : List ℚ → Option ℚ) :
    ∀ (rows : List (List ℚ)) (init : Option ℚ),
      rows.foldl (fun acc row => oFirst (f row) acc) init =
        oFirst (rows.reverse.findSome? f) init := by
  intro rows
  induction rows with
  | nil => intro init; simp [oFirst]
  | cons r rs ih =>
    intro init
    simp only [List.foldl_cons, List.reverse_cons, List.findSome?_append, ih]
    cases h : rs.reverse.findSome? f <;> cases h2 : f r <;>
      simp [oFirst, List.findSome?, h2]

/-- `get_rotation` returns a dictionary on every control path. -/
theorem get_rotation_ne_none (arc : ArcDict) (vecs : List (Option Vec3)) :
    get_rotation arc vecs ≠ none := by
  unfold get_rotation
  dsimp only
  split <;> simp

/-- A radius or tangent magnitude pair in which both entries are truthy but
disagree beyond tolerance makes the pair step fail. -/
theorem length_pair_step_inconsistent (a b : ℚ) (u : Option ℚ)
    (ha : a ≠ 0) (hb : b ≠ 0) (hd : TOLERANCE < |a - b|) :
    length_pair_step [a, b] u = none := by
  have hfa : truthyF a = true := by simp [truthyF, ha]
  have hfb : truthyF b = true := by simp [truthyF, hb]
  have habs : ¬ (|a - b| < TOLERANCE) := not_lt.mpr (le_of_lt hd)
  have hw : support_within_tolerance_list [a, b] = false := by
    simp [support_within_tolerance_list, habs]
  simp [length_pair_step, List.filter, hfa, hfb, hw]

/-- The loop of `station_to_distance` can never accumulate: its start-station
guard reads the never-reassigned `start_sta = -1`. -/
theorem station_loop_stuck (s : ℚ) :
    ∀ (eqns : List (ℚ × ℚ)) (e d : ℚ), station_loop s (-1) e d eqns = d := by
  intro eqns
  induction eqns with
  | nil => intro e d; rfl
  | cons eqn rest ih =>
    intro e d
    have h1 : ((-1 : ℚ) < 0) := by norm_num
    simp only [station_loop]
    rw [if_neg (not_not_intro (Or.inl h1))]
    exact ih eqn.1 d

/-! ## Claim theorems -/

/-- C3: `Utils.within_tolerance` never returns the promised boolean — its body
reads the unbound name `lhr`, so every call (including calls with `None`
arguments) raises `NameError` instead of comparing against the 1e-4
tolerance. -/
theorem within_tolerance_always_raises_name_error :
    ∀ (lhs rhs : Option ℚ),
      within_tolerance lhs rhs = Except.error "NameError: name lhr is not defined" := by
  intro lhs rhs
  unfold within_tolerance
  rw [if_neg (by decide)]

/-- C9: the loop of `station_to_distance` assigns the equation's forward
station to the dead variable `start`, never to `start_sta`, so `start_sta`
stays at its initial -1, the accumulation guard never passes, and every
float-parsable station with every equation list yields distance 0.0. -/
theorem station_to_distance_always_zero :
    ∀ (s : ℚ) (equations : List (ℚ × ℚ)),
      station_to_distance (some s) equations = 0 := by
  intro s equations
  simp only [station_to_distance]
  exact station_loop_stuck s equations (-1) 0

/-- C4 (counterexample): with 1/2 in row 1 and 1/4 in row 2 of the lower
triangle, the first value encountered scanning rows 1–5 in order is 1/2, yet
`get_delta` returns 1/4 — the `break` leaves only the inner loop, so later
rows overwrite the delta. -/
theorem get_delta_not_first_value_counterexample :
    get_delta {} matC4 = some ⟨1 / 4⟩
    ∧ first_lower_triangle_value matC4 = some (1 / 2)
    ∧ ((1 : ℚ) / 4) ≠ 1 / 2 := by
  refine ⟨?_, ?_, by norm_num⟩
  · norm_num [get_delta, deltaRows, matC4, rowScan, oFirst, pyTruthy, to_float,
      List.find?, List.foldl]
  · norm_num [first_lower_triangle_value, deltaRows, matC4, pyTruthy, to_float,
      List.find?]

/-- C4 (amended): `get_delta` returns the first truthy entry of the *last* row
among rows 1–5 of the lower triangle that contains one (each row's scan
overwrites the previous row's hit); absent any matrix value it falls back to
the user-supplied Delta, and it returns no result exactly when the resulting
value is absent or zero. -/
theorem get_delta_keeps_last_row_value :
    ∀ (arc : ArcDict) (mat : Mat),
      get_delta arc mat =
        match oFirst (empirical_delta mat) arc.Delta with
        | none => none
        | some v => if v = 0 then none else some ⟨v⟩ := by
  intro arc mat
  unfold get_delta empirical_delta
  rw [foldl_oFirst rowScan (deltaRows mat) arc.Delta]

/-- C10: `get_bearings` and `get_delta` filter candidates by the truthiness of
`Utils.to_float`, and `to_float(0.0)` is the falsy 0.0, so an exactly-zero
derived bearing or angle is treated as absent: zero never survives the
candidate filter; when every candidate bearing computes to 0.0 and the user
supplied no BearingIn, `get_bearings` reports no result; and when every
lower-triangle angle is 0.0 and the user supplied no Delta, `get_delta`
reports no result. -/
theorem zero_valued_candidates_treated_as_absent :
    (pyTruthy (to_float (some 0)) = false)
    ∧ (∀ l : List ℚ, (0 : ℚ) ∉ l.filter (fun v => pyTruthy (to_float (some v))))
    ∧ (∀ (arc : ArcDict) (mat : Mat) (delta r : ℚ), arc.BearingIn = none →
        ([geoFunc6 0 (mat 6 0) delta r, geoFunc6 1 (mat 6 1) delta r,
          geoFunc6 2 (mat 6 2) delta r, geoFunc6 3 (mat 6 3) delta r,
          geoFunc6 4 (mat 6 4) delta r, geoFunc6 5 (mat 6 5) delta r].all
            (fun v => decide (v = 0)) = true) →
        get_bearings arc mat delta (some r) = Except.ok none)
    ∧ (∀ (arc : ArcDict) (mat : Mat), arc.Delta = none →
        ((deltaRows mat).all (fun row => row.all (fun v => decide (v = 0))) = true) →
        get_delta arc mat = none) := by
  refine ⟨by simp [pyTruthy, to_float], ?_, ?_, ?_⟩
  · intro l h
    simp only [List.mem_filter, pyTruthy, to_float, ne_eq, decide_not] at h
    exact (by simpa using h.2 : (0 : ℚ) ≠ 0) rfl
  · intro arc mat delta r hBI hall
    simp only [List.all_cons, List.all_nil, Bool.and_eq_true, decide_eq_true_eq] at hall
    obtain ⟨h0, h1, h2, h3, h4, h5, -⟩ := hall
    unfold get_bearings
    simp [h0, h1, h2, h3, h4, h5, pyTruthy, to_float, hBI]
  · intro arc mat hD hall
    simp only [deltaRows, List.all_cons, List.all_nil, Bool.and_eq_true,
      decide_eq_true_eq] at hall
    unfold get_delta
    simp only [deltaRows, rowScan, to_float, pyTruthy, List.foldl, List.find?]
    simp [oFirst, hall.1, hall.2.1.1, hall.2.1.2.1, hall.2.2.1.1, hall.2.2.1.2.1,
      hall.2.2.1.2.2.1, hall.2.2.2.1.1, hall.2.2.2.1.2.1, hall.2.2.2.1.2.2.1,
      hall.2.2.2.1.2.2.2.1, hall.2.2.2.2.1.1, hall.2.2.2.2.1.2.1,
      hall.2.2.2.2.1.2.2.1, hall.2.2.2.2.1.2.2.2.1, hall.2.2.2.2.1.2.2.2.2.1, hD]

/-- Witness for C10: a matrix row that makes all six candidate bearings
compute to exactly 0.0 (delta 1, rotation 1) yields no bearings result, and
the all-zero matrix with no user Delta yields no delta result. -/
theorem zero_valued_candidates_treated_as_absent_witness :
    get_bearings {} matB 1 (some 1) = Except.ok none
    ∧ get_delta {} matZero = none := by
  constructor
  · exact zero_valued_candidates_treated_as_absent.2.2.1 {} matB 1 1 rfl
      (by norm_num [matB, geoFunc6, HALF_PI])
  · exact zero_valued_candidates_treated_as_absent.2.2.2 {} matZero rfl
      (by norm_num [matZero, deltaRows])

/-- C2: whenever both magnitudes of a matrix pair — the two radius magnitudes
(diagonal 0 and 1) or the two tangent magnitudes (diagonal 2 and 3) — are
derivable (nonzero) and differ by more than the tolerance, `get_lengths`
returns no result, and whenever `get_lengths` returns no result,
`get_arc_parameters` fails with the radius/tangent diagnostic instead of
silently picking one value. -/
theorem inconsistent_pair_fails_radius_tangent_diagnostic :
    (∀ (arc : ArcDict) (mat : Mat),
      ((mat 0 0 ≠ 0 ∧ mat 1 1 ≠ 0 ∧ TOLERANCE < |mat 0 0 - mat 1 1|)
        ∨ (mat 2 2 ≠ 0 ∧ mat 3 3 ≠ 0 ∧ TOLERANCE < |mat 2 2 - mat 3 3|)) →
      get_lengths arc mat = none)
    ∧ (∀ (t : Trig) (arc : ArcDict),
        get_lengths arc (get_scalar_matrix t (arc_vecs arc)) = none →
        get_arc_parameters t arc =
          ArcOutcome.failure "Invalid curve definition: cannot determine radius / tangent lengths") := by
  constructor
  · intro arc mat h
    rcases h with ⟨ha, hb, hd⟩ | ⟨ha, hb, hd⟩
    · have hstep := length_pair_step_inconsistent (mat 0 0) (mat 1 1) arc.Radius ha hb hd
      simp [get_lengths, hstep]
    · have hstep := length_pair_step_inconsistent (mat 2 2) (mat 3 3) arc.Tangent ha hb hd
      cases hr : length_pair_step [mat 0 0, mat 1 1] arc.Radius with
      | none => simp [get_lengths, hr]
      | some radius => simp [get_lengths, hr, hstep]
  · intro t arc h
    simp [get_arc_parameters, h]

/-- Witness for C2: mismatched Start/Center/End at distances 3 and 4 from the
center (with a supplied Radius of 670) make resolution fail with the
radius/tangent diagnostic. -/
theorem inconsistent_pair_fails_radius_tangent_diagnostic_witness :
    get_arc_parameters ratTrig arcC2 =
      ArcOutcome.failure "Invalid curve definition: cannot determine radius / tangent lengths" := by
  apply inconsistent_pair_fails_radius_tangent_diagnostic.2 ratTrig arcC2
  apply inconsistent_pair_fails_radius_tangent_diagnostic.1 arcC2
  refine Or.inl ⟨?_, ?_, ?_⟩ <;>
    norm_num [get_scalar_matrix, matDiag, gram, matRows, arc_vecs, safe_sub,
      Vec3.dot, Vec3.sub, UP, Vec3.zero, ratTrig, ratSqrt, TOLERANCE, arcC2]

/-- C6: `get_rotation` returns a (truthy, nonempty) dictionary on every path —
even `{'Direction': None}` when no vector pair and no user Direction exist —
so the `cannot determine curve direction` abort in `get_arc_parameters` is
unreachable for every oracle and every arc; concretely, an arc with no points
and no user Direction sails past the direction check and `get_bearings` then
raises a `TypeError` on the `None` rotation instead of the promised
diagnostic. -/
theorem direction_diagnostic_unreachable :
    (∀ (arc : ArcDict) (vecs : List (Option Vec3)), (get_rotation arc vecs).isSome = true)
    ∧ (∀ (t : Trig) (arc : ArcDict),
        get_arc_parameters t arc ≠
          ArcOutcome.failure "Invalid curve definition: cannot determine curve direction")
    ∧ get_arc_parameters ratTrig {} =
        ArcOutcome.raised "TypeError: unsupported operand type(s) for *: NoneType and float" := by
  refine ⟨?_, ?_, ?_⟩
  · intro arc vecs
    exact Option.isSome_iff_ne_none.mpr (get_rotation_ne_none arc vecs)
  · intro t arc
    simp only [get_arc_parameters]
    repeat' split
    all_goals try simp
    all_goals exact absurd (by assumption) (get_rotation_ne_none arc (arc_vecs arc))
  · norm_num [get_arc_parameters, arc_vecs, safe_sub, get_lengths, length_pair_step,
      get_scalar_matrix, matDiag, gram, matRows, rotList, support_get_rotation, UP,
      Vec3.zero, Vec3.dot, ratTrig, ratSqrt, ratAcos, truthyF, support_within_tolerance,
      support_within_tolerance_list, get_delta, deltaRows, rowScan, oFirst, pyTruthy,
      to_float, geoFunc, get_rotation, get_bearings, HALF_PI, piQ, TOLERANCE,
      List.filter, List.find?, List.foldl]

/-- C7: `get_points` reads `arc_dict['InBearing']`, but the dictionary a
successful `get_arc_parameters` run returns (and `get_points`' own docstring)
uses the key `BearingIn`, so discretizing any resolved arc raises `KeyError`
before any point can be produced, for every oracle, interval, interval type
and start coordinate. -/
theorem get_points_on_resolved_arc_raises_key_error :
    ∀ (res : ArcDict) (t : Trig) (sf interval : ℚ) (interval_type : String) (sc : Vec3),
      get_points t sf (resolved_arc_dict res) interval interval_type sc =
        Except.error "KeyError: InBearing" := by
  intro res t sf interval interval_type sc
  simp [get_points, dict_get, resolved_arc_dict, List.find?]

/-- C8: converting a descriptor to internal units and back to document units
returns the original exactly: angle fields round-trip through
radians/degrees, length and point fields through the scale factor (nonzero),
while `Direction` and absent fields pass through unchanged. -/
theorem convert_units_roundtrip :
    ∀ (sf : ℚ) (arc : ArcDict), sf ≠ 0 →
      convert_units sf (convert_units sf arc false) true = arc := by
  intro sf arc hsf
  have hpi : piQ ≠ 0 := by norm_num [piQ]
  have h1 : sf * sf⁻¹ = 1 := mul_inv_cancel₀ hsf
  have h2 : piQ / 180 * (180 / piQ) = 1 := by field_simp
  have hv : ∀ v : Vec3, (v.smul sf).smul sf⁻¹ = v := by
    intro v
    cases v with
    | mk a b c =>
      simp only [Vec3.smul, Vec3.mk.injEq]
      refine ⟨?_, ?_, ?_⟩ <;> field_simp
  have hov : ∀ (o : Option Vec3),
      Option.map ((fun v => v.smul sf⁻¹) ∘ fun v => v.smul sf) o = o := by
    intro o; cases o <;> simp [Function.comp, hv]
  cases arc with
  | mk S E C P R T Ch M Ex L D BI BO Dir =>
    simp [convert_units, Option.map_map, hov, h1, h2, Option.map_id]

/-- Witness for C8: a populated descriptor (angles, lengths, points,
Direction, and absent fields) with the survey-foot scale factor 0.3048
round-trips exactly. -/
theorem convert_units_roundtrip_witness :
    convert_units (3048 / 10000) (convert_units (3048 / 10000) arcC8 false) true = arcC8 :=
  convert_units_roundtrip (3048 / 10000) arcC8 (by norm_num)

/-- C5 (counterexample): with resolved Radius 1 and Delta 1 and a truthy
Tangent of 999 already in the dictionary (as the orchestrator's aliased call
produces when the user supplied it), `get_missing_parameters` keeps 999 even
though it is nowhere near the closed-form `Radius * tan(Delta/2) ≈ 0.5463` —
the claimed within-tolerance check against the closed form never happens for
a truthy Tangent. -/
theorem get_missing_parameters_unchecked_tangent_counterexample :
    (get_missing_parameters trigC5 arcC5 arcC5).map (fun v => v.Tangent) = some (some 999)
    ∧ support_within_tolerance (some 999) (some (1 * trigC5.tanQ (1 / 2))) = false
    ∧ ((999 : ℚ) ≠ 1 * trigC5.tanQ (1 / 2)) := by
  refine ⟨?_, ?_, ?_⟩
  · norm_num [get_missing_parameters, fill_missing, reconcile_missing, arcC5,
      trigC5, pyTruthy, support_within_tolerance, TOLERANCE]
  · norm_num [support_within_tolerance, trigC5, TOLERANCE]
    rw [abs_of_nonneg (by norm_num)]
    norm_num
  · norm_num [trigC5]

/-- C5 (amended): `get_missing_parameters` returns no result iff Radius or
Delta is absent from `new_arc`; otherwise it returns values for all five
fields, where Length, External and Middle are compared against the closed-form
values, Tangent and Chord keep a truthy value already present in `new_arc`
(falling back to the closed form only when absent or zero), and each final
field keeps `arc`'s value when within tolerance of its comparison value and
takes the comparison value otherwise. -/
theorem get_missing_parameters_matches_amended_spec :
    ∀ (t : Trig) (arc na : ArcDict),
      get_missing_parameters t arc na = missing_spec t arc na := by
  intro t arc na
  cases na with
  | mk S E C P R T Ch M Ex L D BI BO Dir =>
    cases R with
    | none => rfl
    | some radius =>
      cases D with
      | none => rfl
      | some delta =>
        cases T with
        | none =>
          cases Ch with
          | none =>
            simp [get_missing_parameters, fill_missing, missing_spec,
              reconcile_missing, pyTruthy]
          | some cv =>
            by_cases hcv : cv = 0 <;>
              simp [get_missing_parameters, fill_missing, missing_spec,
                reconcile_missing, pyTruthy, hcv]
        | some tv =>
          cases Ch with
          | none =>
            by_cases htv : tv = 0 <;>
              simp [get_missing_parameters, fill_missing, missing_spec,
                reconcile_missing, pyTruthy, htv]
          | some cv =>
            by_cases htv : tv = 0 <;> by_cases hcv : cv = 0 <;>
              simp [get_missing_parameters, fill_missing, missing_spec,
                reconcile_missing, pyTruthy, htv, hcv]

end TransportWB
